import Mathlib

/-!
Verification of the Recording Session Controller.

A shallow embedding, in Lean 4, of the core logic of the
`PyQt5_FFmpeg_Screen_Recorder` application
(`src/PyQt5_FFmpeg_Screen_Recorder.py`), together with theorems settling
the specification's claims about it.

The embedded parts are:

* `FFmpegThread` (`run` / `stop`): process supervision, the `_stopping`
  flag, interrupt-signal delivery, and exit classification into the
  `finished` / `error_occurred` notifications;
* the geometry resolution in `ScreenRecorder.start_recording`
  (even-alignment of a selected region's width/height, fallback to the
  chosen screen's origin and the resolution dropdown);
* the ffmpeg command builder in `ScreenRecorder.start_recording`
  (screen-capture stage, conditional audio stages, output stage);
* the UI-state updates of `start_recording`, `recording_finished` and
  `recording_failed`;
* Qt's `QRect` two-point constructor, `normalized()` and `isNull()`
  as used by `RegionSelector.mouseReleaseEvent` (Qt 5 semantics:
  `width = x2 - x1 + 1`, `normalized` swaps only when the width/height
  is negative; PyQt5 maps `bool(rect)` to `not rect.isNull()`).

Machine integers do not overflow in any of the embedded code paths
(Python integers are unbounded), so plain `Int` / `Nat` are used.
-/

set_option autoImplicit false

namespace ScreenRec

/-! ## The supervisor's notifications (`finished` / `error_occurred`) -/

/-- A terminal notification emitted by `FFmpegThread`: the `finished`
signal, or the `error_occurred` signal carrying a message. -/
inductive Notif where
  | finished
  | errorOccurred (msg : String)
deriving DecidableEq, Repr

/-- The observable status of the spawned encoder process, as seen through
`Popen.poll()`: still running (`poll()` is `None`) or exited with a code. -/
inductive ProcStatus where
  | running
  | exited (code : Int)
deriving DecidableEq, Repr

/-- The mutable state of an `FFmpegThread` instance: the process handle
(`self.process`, `None` before the spawn) and the `self._stopping` flag. -/
structure FFmpegThreadState where
  process : Option ProcStatus
  stopping : Bool
deriving DecidableEq, Repr

/-- A freshly constructed `FFmpegThread` (`__init__`): no process handle,
`_stopping = False`. -/
def FFmpegThreadState.init : FFmpegThreadState :=
  { process := none, stopping := false }

/-- Result of one call to `FFmpegThread.stop`: the updated thread state,
how many interrupt signals were delivered to the process, and the
notifications emitted by the call itself. -/
structure StopResult where
  state : FFmpegThreadState
  signals : Nat
  emits : List Notif
deriving DecidableEq, Repr

/-- The method `FFmpegThread.stop`.  Source:

```python
if self.process and self.process.poll() is None:
    try:
        self._stopping = True
        self.process.send_signal(...)   # CTRL_BREAK_EVENT / SIGINT
    except Exception as e:
        self.error_occurred.emit(f"Failed to stop FFmpeg: {e}")
```

`raises` models `send_signal` raising; `_stopping` is assigned before the
signal is sent, so it is set even on the raising path. -/
def stop (raises : Bool) (s : FFmpegThreadState) : StopResult :=
  match s.process with
  | some ProcStatus.running =>
      if raises then
        { state := { s with stopping := true }, signals := 0,
          emits := [Notif.errorOccurred "Failed to stop FFmpeg: e"] }
      else
        { state := { s with stopping := true }, signals := 1, emits := [] }
  | _ => { state := s, signals := 0, emits := [] }

/-- Python's `str.strip()` (no arguments): remove whitespace from both
ends of the captured stderr text.  Written over the character list so it
is kernel-executable. -/
def pyStrip (s : String) : String :=
  String.mk
    (((s.data.dropWhile Char.isWhitespace).reverse.dropWhile
      Char.isWhitespace).reverse)

/-- The acceptable exit statuses of `FFmpegThread.run`:
`self.process.returncode not in (0, 2, 130)` is the failure test. -/
def acceptable (code : Int) : Bool :=
  code = 0 || code = 2 || code = 130

/-- The exit classification of `FFmpegThread.run` once `communicate()` has
returned: `_stopping` wins, otherwise the return code decides, and the
failure message is the captured stderr text, stripped. -/
def classifyExit (stopping : Bool) (code : Int) (stderrText : String) : Notif :=
  if stopping then Notif.finished
  else if !(acceptable code) then Notif.errorOccurred (pyStrip stderrText)
  else Notif.finished

/-- What happened inside the `try:` of `FFmpegThread.run`: the process was
spawned and exited with a code and captured stderr text, or some step
(spawning / communicating) raised with a message. -/
inductive RunOutcome where
  | exited (code : Int) (stderrText : String)
  | raised (msg : String)
deriving DecidableEq, Repr

/-- The notifications emitted by `FFmpegThread.run`, branch by branch
(`if self._stopping: finished` / `elif returncode not in (0, 2, 130):
error_occurred(stderr.strip())` / `else: finished`; the `except` arm emits
`error_occurred(str(e))`).  `stoppingAtExit` is the value of `_stopping`
read after the process has exited. -/
def runEmits (stoppingAtExit : Bool) (o : RunOutcome) : List Notif :=
  match o with
  | RunOutcome.raised msg => [Notif.errorOccurred msg]
  | RunOutcome.exited code stderrText =>
      (if stoppingAtExit then [Notif.finished] else []) ++
      (if !stoppingAtExit && !(acceptable code) then
        [Notif.errorOccurred (pyStrip stderrText)] else []) ++
      (if !stoppingAtExit && acceptable code then [Notif.finished] else [])

/-- One whole session of the supervisor, for a process that spawns and
eventually exits with `code` and stderr text `stderrText`.  If
`stopCalled` is true, `stop()` is called while the process is still
running (`raises` says whether the signal send raises); the monitor then
reads `_stopping` after the exit.  Returns every notification the session
emits, in order. -/
def sessionEmits (stopCalled raises : Bool) (code : Int)
    (stderrText : String) : List Notif :=
  let s0 : FFmpegThreadState :=
    { process := some ProcStatus.running, stopping := false }
  if stopCalled then
    let r := stop raises s0
    r.emits ++ runEmits r.state.stopping (RunOutcome.exited code stderrText)
  else
    runEmits s0.stopping (RunOutcome.exited code stderrText)

/-! ## Qt rectangles, as used by `RegionSelector` -/

/-- A Qt 5 `QRect`, stored Qt-style as the two corner coordinates; the
historical convention is `width = x2 - x1 + 1`, `height = y2 - y1 + 1`. -/
structure QRect where
  x1 : Int
  y1 : Int
  x2 : Int
  y2 : Int
deriving DecidableEq, Repr

/-- The `QRect(topLeft, bottomRight)` two-point constructor used in
`RegionSelector.mouseReleaseEvent`. -/
def QRect.fromPoints (p q : Int × Int) : QRect :=
  { x1 := p.1, y1 := p.2, x2 := q.1, y2 := q.2 }

def QRect.x (r : QRect) : Int := r.x1

def QRect.y (r : QRect) : Int := r.y1

def QRect.width (r : QRect) : Int := r.x2 - r.x1 + 1

def QRect.height (r : QRect) : Int := r.y2 - r.y1 + 1

/-- Qt's `QRect.isNull()`: width and height are both zero. -/
def QRect.isNull (r : QRect) : Bool :=
  r.x2 = r.x1 - 1 && r.y2 = r.y1 - 1

/-- Qt 5's `QRect::normalized()`: each axis is swapped only when its
extent is negative (`x2 < x1 - 1`, i.e. width < 0); a zero extent is left
alone. -/
def QRect.normalized (r : QRect) : QRect :=
  { x1 := if r.x2 < r.x1 - 1 then r.x2 else r.x1
  , x2 := if r.x2 < r.x1 - 1 then r.x1 else r.x2
  , y1 := if r.y2 < r.y1 - 1 then r.y2 else r.y1
  , y2 := if r.y2 < r.y1 - 1 then r.y1 else r.y2 }

/-- Truthiness of a `QRect` in PyQt5: `bool(rect)` is mapped by the sip
binding to `not rect.isNull()`.  This decides the
`if self.capture_rect_global:` test in `start_recording`. -/
def QRect.truthy (r : QRect) : Bool := !r.isNull

/-- The handler `RegionSelector.mouseReleaseEvent` builds the emitted global rectangle
as `QRect(self.start_pos_global, self.end_pos_global).normalized()`. -/
def selectionRect (startPos endPos : Int × Int) : QRect :=
  (QRect.fromPoints startPos endPos).normalized

/-! ## Geometry resolution in `start_recording` -/

/-- Even-alignment of one dimension: `d if d % 2 == 0 else d + 1`. -/
def alignDim (d : Int) : Int :=
  if d % 2 = 0 then d else d + 1

/-- The capture geometry handed to the command builder: desktop-global
offsets and the even-aligned size. -/
structure CaptureGeometry where
  offsetX : Int
  offsetY : Int
  width : Int
  height : Int
deriving DecidableEq, Repr

/-- The region branch of `start_recording`: offsets from the global
rectangle's top-left corner, each dimension bumped to even. -/
def resolveRegion (g : QRect) : CaptureGeometry :=
  { offsetX := g.x, offsetY := g.y,
    width := alignDim g.width, height := alignDim g.height }

/-- Rebuild a Qt rectangle from a capture geometry (same top-left corner,
width and height). -/
def CaptureGeometry.toRect (c : CaptureGeometry) : QRect :=
  { x1 := c.offsetX, y1 := c.offsetY,
    x2 := c.offsetX + c.width - 1, y2 := c.offsetY + c.height - 1 }

/-! ## The ffmpeg command builder in `start_recording` -/

/-- The screen-capture input stage
(`-f gdigrab -framerate .. -offset_x .. -offset_y .. -video_size .. -i desktop`). -/
def screenStage (fps : String) (offsetX offsetY : Int)
    (resolution : String) : List String :=
  ["-f", "gdigrab", "-framerate", fps, "-offset_x", toString offsetX,
   "-offset_y", toString offsetY, "-video_size", resolution, "-i", "desktop"]

/-- The audio input stage, added only when `audio_device != "None"`. -/
def audioInputStage (audioDevice : String) : List String :=
  if audioDevice ≠ "None" then
    ["-f", "dshow", "-i", "audio=" ++ audioDevice]
  else []

/-- The always-present video output options. -/
def videoCodecStage : List String :=
  ["-vcodec", "libx264", "-pix_fmt", "yuv420p", "-preset", "ultrafast"]

/-- The audio codec/bitrate stage, added only when `audio_device != "None"`. -/
def audioCodecStage (audioDevice bitRate : String) : List String :=
  if audioDevice ≠ "None" then ["-acodec", "aac", "-b:a", bitRate]
  else []

/-- The full command assembled by `start_recording`. -/
def buildCmd (offsetX offsetY : Int)
    (resolution fps audioDevice bitRate outputPath : String) : List String :=
  ["ffmpeg"] ++ screenStage fps offsetX offsetY resolution ++
    audioInputStage audioDevice ++ videoCodecStage ++
    audioCodecStage audioDevice bitRate ++ ["-y", outputPath]

/-! ## The `ScreenRecorder` window state -/

/-- The part of the `ScreenRecorder` widget state that the session logic
reads and writes.  `outputPath = ""` models a falsy `self.output_path`
(`if not self.output_path: return`); `screenGeom` is the chosen display's
descriptor (`QApplication.desktop().screenGeometry(screen_index)`);
`running` counts the live encoder processes spawned so far;
`widgetsEnabled` is the state set by `enable_widgets` for the controls
other than the start/stop buttons (those two get individual
`setEnabled` calls afterwards); `errorShown` is the text of the last
critical message box, if any. -/
structure RecorderState where
  outputPath : String
  screenGeom : QRect
  resCombo : String
  fpsSpin : Nat
  audioCombo : String
  bitRateCombo : String
  captureRectGlobal : Option QRect
  running : Nat
  widgetsEnabled : Bool
  startEnabled : Bool
  stopEnabled : Bool
  overlayBlinking : Bool
  minimized : Bool
  errorShown : Option String
deriving DecidableEq, Repr

/-- Result of one call to `ScreenRecorder.start_recording`: the updated
window state, the command of the process it spawned (if it spawned one),
and whether the call surfaced an error to the user. -/
structure StartResult where
  state : RecorderState
  spawned : Option (List String)
  errorReported : Bool
deriving DecidableEq, Repr

/-- The method `ScreenRecorder.start_recording`.  Faithful to the source: the only
early return is `if not self.output_path`; offsets default to the screen
descriptor's origin and the size to the resolution dropdown text; a
truthy `capture_rect_global` overrides them with the region's top-left
corner and its even-aligned size, and is then cleared to `None`; the
command is built, a new `FFmpegThread` is created and started with no
check that one is already running, and the UI is put into the recording
configuration (`enable_widgets(False)`, stop button re-enabled, overlay
blinking, window minimized). -/
def start_recording (s : RecorderState) : StartResult :=
  if s.outputPath = "" then { state := s, spawned := none, errorReported := false }
  else
    let fallback : Int × Int × String × Option QRect :=
      (s.screenGeom.x, s.screenGeom.y, s.resCombo, s.captureRectGlobal)
    let resolved : Int × Int × String × Option QRect :=
      match s.captureRectGlobal with
      | some r =>
          if r.truthy then
            (r.x, r.y,
             toString (alignDim r.width) ++ "x" ++ toString (alignDim r.height),
             none)
          else fallback
      | none => fallback
    let cmd := buildCmd resolved.1 resolved.2.1 resolved.2.2.1
      (toString s.fpsSpin) s.audioCombo s.bitRateCombo s.outputPath
    { state :=
        { s with captureRectGlobal := resolved.2.2.2,
                 running := s.running + 1,
                 widgetsEnabled := false, startEnabled := false,
                 stopEnabled := true, overlayBlinking := true,
                 minimized := true },
      spawned := some cmd,
      errorReported := false }

/-- The handler `ScreenRecorder.recording_finished`: overlay off, `enable_widgets(True)`
(re-enabling every child control), stop button disabled again, window
restored. -/
def recording_finished (s : RecorderState) : RecorderState :=
  { s with overlayBlinking := false,
           widgetsEnabled := true, startEnabled := true, stopEnabled := false,
           minimized := false }

/-- The handler `ScreenRecorder.recording_failed`: overlay off, only the start button
is re-enabled (`self.start_button.setEnabled(True)`), the stop button is
disabled, and the error text is shown in a critical message box.  There
is no `enable_widgets(True)` and no `showNormal()` on this path, and no
new process is spawned (no retry). -/
def recording_failed (errorMsg : String) (s : RecorderState) : RecorderState :=
  { s with overlayBlinking := false,
           startEnabled := true, stopEnabled := false,
           errorShown := some ("Recording failed:\n" ++ errorMsg) }

/-- A concrete recorder state used by the concrete theorems: one
1920×1080 screen at the desktop origin, default dropdown values, an
output path chosen, nothing recording. -/
def idleState : RecorderState :=
  { outputPath := "C:/rec/out.mp4", screenGeom := ⟨0, 0, 1919, 1079⟩,
    resCombo := "1920x1080", fpsSpin := 30, audioCombo := "None",
    bitRateCombo := "128k", captureRectGlobal := none, running := 0,
    widgetsEnabled := true, startEnabled := true, stopEnabled := false,
    overlayBlinking := false, minimized := false, errorShown := none }

/-! ## Shared helper lemmas -/

/-- The branch structure of `run` agrees with the exit classification. -/
theorem runEmits_exited (b : Bool) (code : Int) (stderrText : String) :
    runEmits b (RunOutcome.exited code stderrText) =
      [classifyExit b code stderrText] := by
  cases b
  · cases h : acceptable code <;> simp [runEmits, classifyExit, h]
  · simp [runEmits, classifyExit]

/-- Every branch of `run` emits exactly one notification. -/
theorem runEmits_length (b : Bool) (o : RunOutcome) :
    (runEmits b o).length = 1 := by
  cases o with
  | raised msg => simp [runEmits]
  | exited code stderrText => rw [runEmits_exited]; simp

/-- Even-alignment leaves an even dimension alone. -/
theorem alignDim_even {d : Int} (h : d % 2 = 0) : alignDim d = d :=
  if_pos h

/-- Even-alignment bumps an odd dimension by one. -/
theorem alignDim_odd {d : Int} (h : d % 2 = 1) : alignDim d = d + 1 := by
  unfold alignDim
  rw [if_neg]
  omega

/-- Even-alignment is idempotent on a single dimension. -/
theorem alignDim_idem (d : Int) : alignDim (alignDim d) = alignDim d := by
  by_cases h : d % 2 = 0
  · rw [alignDim_even h, alignDim_even h]
  · have h1 : d % 2 = 1 := by omega
    rw [alignDim_odd h1, alignDim_even (by omega)]

/-! ## Claim theorems -/

/-- C1: exit classification of the encoding process.  If the stop flag
was set before the monitor reads it, the session emits `finished`
whatever the exit status; otherwise a status in {0, 2, 130} yields
`finished` and any other status yields `error_occurred` carrying the
stripped stderr text. -/
theorem exit_classification_spec (code : Int) (stderrText : String) :
    runEmits true (RunOutcome.exited code stderrText) = [Notif.finished] ∧
    ((code = 0 ∨ code = 2 ∨ code = 130) →
      runEmits false (RunOutcome.exited code stderrText) = [Notif.finished]) ∧
    (¬(code = 0 ∨ code = 2 ∨ code = 130) →
      runEmits false (RunOutcome.exited code stderrText) =
        [Notif.errorOccurred (pyStrip stderrText)]) := by
  have hacc : acceptable code = true ↔ (code = 0 ∨ code = 2 ∨ code = 130) := by
    simp [acceptable, or_assoc]
  refine ⟨by rw [runEmits_exited]; simp [classifyExit], ?_, ?_⟩
  · intro h
    rw [runEmits_exited]
    simp [classifyExit, hacc.mpr h]
  · intro h
    have hf : acceptable code = false := by
      rw [Bool.eq_false_iff]
      intro hb
      exact h (hacc.mp hb)
    rw [runEmits_exited]
    simp [classifyExit, hf]

/-- Witness for C1 at exit codes 1 (with whitespace-padded stderr) and 2. -/
theorem exit_classification_spec_witness :
    runEmits true (RunOutcome.exited 1 "  boom  ") = [Notif.finished] ∧
    runEmits false (RunOutcome.exited 2 "ignored") = [Notif.finished] ∧
    runEmits false (RunOutcome.exited 1 "  boom  ") =
      [Notif.errorOccurred "boom"] := by
  refine ⟨(exit_classification_spec 1 "  boom  ").1,
    (exit_classification_spec 2 "ignored").2.1 (Or.inr (Or.inl rfl)), ?_⟩
  have h := (exit_classification_spec 1 "  boom  ").2.2 (by decide)
  exact h.trans (by decide)

/-- C2 counterexample: on a still-running process, a second immediate
`stop()` is not a no-op even though a stop is already pending — the two
calls deliver two interrupt signals, not one. -/
theorem stop_double_signal_counterexample :
    (stop false ⟨some ProcStatus.running, false⟩).state.stopping = true ∧
    (stop false (stop false ⟨some ProcStatus.running, false⟩).state).signals
      = 1 ∧
    (stop false ⟨some ProcStatus.running, false⟩).signals +
      (stop false (stop false ⟨some ProcStatus.running, false⟩).state).signals
      = 2 := by
  decide

/-- C2 (amended): `stop()` is a no-op exactly when no process handle
exists or the process has already exited; it never consults the pending
`_stopping` flag, so while the process is still running every call —
including an immediate second one — sends one interrupt signal. -/
theorem stop_noop_only_when_not_running (s : FFmpegThreadState)
    (raises : Bool) :
    (s.process = none →
      stop raises s = { state := s, signals := 0, emits := [] }) ∧
    (∀ c : Int, s.process = some (ProcStatus.exited c) →
      stop raises s = { state := s, signals := 0, emits := [] }) ∧
    (s.process = some ProcStatus.running →
      (stop false s).signals = 1 ∧
      (stop false (stop false s).state).signals = 1) := by
  refine ⟨fun h => by simp [stop, h], fun c h => by simp [stop, h], fun h => ?_⟩
  constructor
  · simp [stop, h]
  · simp [stop, h]

/-- Witness for C2's amended theorem: no-op on a missing handle and on an
exited process; one signal per call on a running process. -/
theorem stop_noop_only_when_not_running_witness :
    stop false ⟨none, false⟩ = ⟨⟨none, false⟩, 0, []⟩ ∧
    stop true ⟨some (ProcStatus.exited 130), false⟩ =
      ⟨⟨some (ProcStatus.exited 130), false⟩, 0, []⟩ ∧
    (stop false ⟨some ProcStatus.running, false⟩).signals = 1 :=
  ⟨(stop_noop_only_when_not_running ⟨none, false⟩ false).1 rfl,
   (stop_noop_only_when_not_running ⟨some (ProcStatus.exited 130), false⟩
      true).2.1 130 rfl,
   ((stop_noop_only_when_not_running ⟨some ProcStatus.running, false⟩
      false).2.2 rfl).1⟩

/-- C3 counterexample: when the interrupt send raises, the session emits
*both* a failed notification (from `stop`) and a completed notification
(from `run`, since `_stopping` was set before the send) — two terminal
notifications, not one. -/
theorem signal_failure_double_notification :
    sessionEmits true true 130 "x" =
      [Notif.errorOccurred "Failed to stop FFmpeg: e", Notif.finished] ∧
    (sessionEmits true true 130 "x").length ≠ 1 := by
  decide

/-- C3 (amended): `run` itself emits exactly one terminal notification on
every path, and a whole session emits exactly one provided the interrupt
send does not raise; if it raises, `stop` emits an additional
`error_occurred`, so the session observes two notifications. -/
theorem session_single_notification (stopCalled b : Bool) (o : RunOutcome)
    (code : Int) (stderrText : String) :
    (runEmits b o).length = 1 ∧
    (sessionEmits stopCalled false code stderrText).length = 1 ∧
    (sessionEmits stopCalled true code stderrText).length =
      (if stopCalled then 2 else 1) := by
  refine ⟨runEmits_length b o, ?_, ?_⟩
  · cases stopCalled <;> simp [sessionEmits, stop, runEmits_length]
  · cases stopCalled <;> simp [sessionEmits, stop, runEmits_length]

theorem toRect_x (c : CaptureGeometry) : c.toRect.x = c.offsetX := rfl

theorem toRect_y (c : CaptureGeometry) : c.toRect.y = c.offsetY := rfl

theorem toRect_width (c : CaptureGeometry) : c.toRect.width = c.width := by
  simp only [CaptureGeometry.toRect, QRect.width]
  ring

theorem toRect_height (c : CaptureGeometry) : c.toRect.height = c.height := by
  simp only [CaptureGeometry.toRect, QRect.height]
  ring

/-- Resolving a rectangle rebuilt from an already-resolved geometry
changes nothing. -/
theorem resolveRegion_idem (g : QRect) :
    resolveRegion (resolveRegion g).toRect = resolveRegion g := by
  show (⟨(resolveRegion g).toRect.x, (resolveRegion g).toRect.y,
      alignDim (resolveRegion g).toRect.width,
      alignDim (resolveRegion g).toRect.height⟩ : CaptureGeometry) = _
  rw [toRect_x, toRect_y, toRect_width, toRect_height]
  show (⟨g.x, g.y, alignDim (alignDim g.width),
      alignDim (alignDim g.height)⟩ : CaptureGeometry) = _
  rw [alignDim_idem, alignDim_idem]
  rfl

/-- C4: the resolved offsets are the global rectangle's top-left corner,
odd dimensions are bumped by one, even dimensions are unchanged, the
transform is idempotent, and the spec's scenario rectangle at (100,50)
with width/height 201 (also written as the Qt two-point rectangle
`QRect((100,50),(301,251))`) resolves to offset (100,50) and size
202×202. -/
theorem geometry_even_alignment (g : QRect) :
    (resolveRegion g).offsetX = g.x ∧
    (resolveRegion g).offsetY = g.y ∧
    (g.width % 2 = 1 → (resolveRegion g).width = g.width + 1) ∧
    (g.width % 2 = 0 → (resolveRegion g).width = g.width) ∧
    (g.height % 2 = 1 → (resolveRegion g).height = g.height + 1) ∧
    (g.height % 2 = 0 → (resolveRegion g).height = g.height) ∧
    resolveRegion (resolveRegion g).toRect = resolveRegion g ∧
    resolveRegion { x1 := 100, y1 := 50, x2 := 300, y2 := 250 } =
      { offsetX := 100, offsetY := 50, width := 202, height := 202 } ∧
    resolveRegion (QRect.fromPoints (100, 50) (301, 251)) =
      { offsetX := 100, offsetY := 50, width := 202, height := 202 } :=
  ⟨rfl, rfl,
   fun h => alignDim_odd h, fun h => alignDim_even h,
   fun h => alignDim_odd h, fun h => alignDim_even h,
   resolveRegion_idem g, by decide, by decide⟩

/-- Witness for C4: the 201×201 scenario rectangle gets width 202, and an
even 100-wide rectangle is left at width 100. -/
theorem geometry_even_alignment_witness :
    (resolveRegion ⟨100, 50, 300, 250⟩).width = 202 ∧
    (resolveRegion ⟨0, 0, 99, 49⟩).width = 100 :=
  ⟨((geometry_even_alignment ⟨100, 50, 300, 250⟩).2.2.1
      (by decide)).trans (by decide),
   ((geometry_even_alignment ⟨0, 0, 99, 49⟩).2.2.2.1
      (by decide)).trans (by decide)⟩

/-- C6 counterexample: calling `start_recording` while an encoder process
is already running reports no error and spawns a second process — the
call has no already-running guard. -/
theorem start_while_running_spawns_second :
    (start_recording (start_recording idleState).state).spawned.isSome
      = true ∧
    (start_recording (start_recording idleState).state).errorReported
      = false ∧
    (start_recording (start_recording idleState).state).state.running
      = 2 := by
  decide

/-- C6 (amended): the only fail-fast guard in `start_recording` is an
unset output path; whenever the output path is set the call spawns a new
encoder process and reports no error, regardless of how many processes
are already running. -/
theorem start_guarded_only_by_output_path (s : RecorderState) :
    (s.outputPath = "" →
      start_recording s = { state := s, spawned := none,
                            errorReported := false }) ∧
    (s.outputPath ≠ "" →
      (start_recording s).spawned.isSome = true ∧
      (start_recording s).errorReported = false ∧
      (start_recording s).state.running = s.running + 1) := by
  constructor
  · intro h
    simp [start_recording, h]
  · intro h
    rcases hc : s.captureRectGlobal with _ | r
    · simp [start_recording, h, hc]
    · by_cases ht : r.truthy <;> simp [start_recording, h, hc, ht]

/-- Witness for C6's amended theorem at the concrete idle state. -/
theorem start_guarded_only_by_output_path_witness :
    (start_recording idleState).spawned.isSome = true ∧
    (start_recording idleState).state.running = 1 := by
  have h := (start_guarded_only_by_output_path idleState).2 (by decide)
  exact ⟨h.1, h.2.2.trans (by decide)⟩

/-- C7 counterexample: degenerate selections are not folded back to the
full screen.  A 1-pixel-backwards drag from (10,20) to (9,25) yields a
zero-width, height-6 global rectangle which is truthy, so the session
records a zero-area region "0x6" at offset (10,20) — not the screen's
full geometry; a click without a drag yields a 1×1 rectangle recorded as
"2x2"; and even with no region at all the size is the resolution
dropdown's text ("640x480" here), not the 1920×1080 descriptor of the
screen. -/
theorem degenerate_selection_zero_area :
    (selectionRect (10, 20) (9, 25)).width = 0 ∧
    (selectionRect (10, 20) (9, 25)).truthy = true ∧
    (start_recording
        { idleState with
            captureRectGlobal := some (selectionRect (10, 20) (9, 25)) }
      ).spawned =
      some (buildCmd 10 20 "0x6" "30" "None" "128k" "C:/rec/out.mp4") ∧
    (start_recording
        { idleState with
            captureRectGlobal := some (selectionRect (10, 20) (10, 20)) }
      ).spawned =
      some (buildCmd 10 20 "2x2" "30" "None" "128k" "C:/rec/out.mp4") ∧
    (start_recording { idleState with resCombo := "640x480" }).spawned =
      some (buildCmd 0 0 "640x480" "30" "None" "128k" "C:/rec/out.mp4") := by
  decide

/-- C7 (amended): the fallback to the chosen screen's origin happens
exactly when the stored global rectangle is absent (`None`) or null
(0×0, falsy in PyQt5), and the fallback size is the resolution
dropdown's text, not the display descriptor's resolution; every truthy
rectangle — including zero-width or zero-height non-null ones — is used
as the region with even-aligned dimensions, and a click without a drag
produces a 1×1 (not 0×0) rectangle. -/
theorem region_fallback_behavior (s : RecorderState) (r : QRect)
    (p : Int × Int) (h : s.outputPath ≠ "") :
    (s.captureRectGlobal = none →
      (start_recording s).spawned =
        some (buildCmd s.screenGeom.x s.screenGeom.y s.resCombo
          (toString s.fpsSpin) s.audioCombo s.bitRateCombo s.outputPath)) ∧
    (s.captureRectGlobal = some r → r.truthy = false →
      (start_recording s).spawned =
        some (buildCmd s.screenGeom.x s.screenGeom.y s.resCombo
          (toString s.fpsSpin) s.audioCombo s.bitRateCombo s.outputPath)) ∧
    (s.captureRectGlobal = some r → r.truthy = true →
      (start_recording s).spawned =
        some (buildCmd r.x r.y
          (toString (alignDim r.width) ++ "x" ++ toString (alignDim r.height))
          (toString s.fpsSpin) s.audioCombo s.bitRateCombo s.outputPath)) ∧
    (selectionRect p p).width = 1 ∧ (selectionRect p p).height = 1 := by
  refine ⟨?_, ?_, ?_, ?_, ?_⟩
  · intro hc
    simp [start_recording, h, hc]
  · intro hc ht
    simp [start_recording, h, hc, ht]
  · intro hc ht
    simp [start_recording, h, hc, ht]
  · simp [selectionRect, QRect.fromPoints, QRect.normalized, QRect.width]
  · simp [selectionRect, QRect.fromPoints, QRect.normalized, QRect.height]

/-- Witness for C7's amended theorem: the no-region fallback on the
concrete idle state, and the 1×1 click rectangle at (10,20). -/
theorem region_fallback_behavior_witness :
    (start_recording idleState).spawned =
      some (buildCmd 0 0 "1920x1080" "30" "None" "128k" "C:/rec/out.mp4") ∧
    (selectionRect (10, 20) (10, 20)).width = 1 := by
  have h := region_fallback_behavior idleState ⟨0, 0, 0, 0⟩ (10, 20)
    (by decide)
  exact ⟨(h.1 rfl).trans (by decide), h.2.2.2.1⟩

/-- C8: after a failed session the failure is surfaced with the captured
diagnostic text and there is no retry, but — contradicting the claim —
the controls other than the Start button stay disabled: `recording_failed`
re-enables only the Start button and, unlike `recording_finished`, never
calls `enable_widgets(True)` (and leaves the window minimized). -/
theorem recording_failed_leaves_widgets_disabled :
    runEmits false (RunOutcome.exited 1 " boom ") =
      [Notif.errorOccurred "boom"] ∧
    (recording_failed "boom" (start_recording idleState).state).errorShown =
      some "Recording failed:\nboom" ∧
    (recording_failed "boom" (start_recording idleState).state).startEnabled
      = true ∧
    (recording_failed "boom" (start_recording idleState).state).stopEnabled
      = false ∧
    (recording_failed "boom" (start_recording idleState).state).widgetsEnabled
      = false ∧
    (recording_failed "boom" (start_recording idleState).state).minimized
      = true ∧
    (recording_finished (start_recording idleState).state).widgetsEnabled
      = true := by
  decide

/-- C9: a truthy selected region is consumed by a single session —
`start_recording` clears the stored global rectangle, so a second start
without a new selection builds its command from the chosen screen's
origin and the resolution dropdown's text. -/
theorem region_consumed_once (s : RecorderState) (r : QRect)
    (h : s.outputPath ≠ "") (hr : s.captureRectGlobal = some r)
    (ht : r.truthy = true) :
    (start_recording s).state.captureRectGlobal = none ∧
    (start_recording (start_recording s).state).spawned =
      some (buildCmd s.screenGeom.x s.screenGeom.y s.resCombo
        (toString s.fpsSpin) s.audioCombo s.bitRateCombo s.outputPath) := by
  have h1 : (start_recording s).state =
      { s with captureRectGlobal := none, running := s.running + 1,
               widgetsEnabled := false, startEnabled := false,
               stopEnabled := true, overlayBlinking := true,
               minimized := true } := by
    simp [start_recording, h, hr, ht]
  refine ⟨by rw [h1], ?_⟩
  rw [h1]
  simp [start_recording, h]

/-- Witness for C9: a 201×201 region at (100,50) on the concrete idle
state is used once and then cleared. -/
theorem region_consumed_once_witness :
    (start_recording
        { idleState with captureRectGlobal := some ⟨100, 50, 300, 250⟩ }
      ).state.captureRectGlobal = none ∧
    (start_recording
        (start_recording
          { idleState with captureRectGlobal := some ⟨100, 50, 300, 250⟩ }
        ).state).spawned =
      some (buildCmd 0 0 "1920x1080" "30" "None" "128k" "C:/rec/out.mp4") := by
  have h := region_consumed_once
    { idleState with captureRectGlobal := some ⟨100, 50, 300, 250⟩ }
    ⟨100, 50, 300, 250⟩ (by decide) rfl (by decide)
  exact ⟨h.1, h.2.trans (by decide)⟩

/-- C10: a stop request issued while no process handle exists, or after
the process has already exited, is silently dropped — the state
(including the `_stopping` flag) is unchanged, no signal is sent and
nothing is emitted — so the eventual exit is classified by its exit code
alone. -/
theorem early_stop_dropped (s : FFmpegThreadState) (raises : Bool)
    (code : Int) (stderrText : String)
    (h : s.process = none ∨ ∃ c : Int, s.process = some (ProcStatus.exited c))
    (h0 : s.stopping = false) :
    stop raises s = { state := s, signals := 0, emits := [] } ∧
    runEmits (stop raises s).state.stopping
        (RunOutcome.exited code stderrText) =
      [classifyExit false code stderrText] := by
  have hstop : stop raises s = { state := s, signals := 0, emits := [] } := by
    rcases h with h | ⟨c, h⟩ <;> simp [stop, h]
  refine ⟨hstop, ?_⟩
  rw [hstop]
  show runEmits s.stopping (RunOutcome.exited code stderrText) = _
  rw [h0]
  exact runEmits_exited false code stderrText

/-- Witness for C10: an early stop on a fresh thread (no handle yet) with
a later exit status 1. -/
theorem early_stop_dropped_witness :
    stop false FFmpegThreadState.init =
      { state := FFmpegThreadState.init, signals := 0, emits := [] } ∧
    runEmits (stop false FFmpegThreadState.init).state.stopping
        (RunOutcome.exited 1 "err") =
      [classifyExit false 1 "err"] :=
  early_stop_dropped FFmpegThreadState.init false 1 "err" (Or.inl rfl) rfl

/-- C5: audio stages are conditional on the audio device.  With
`audioDevice = "None"` the command holds no `dshow` audio input token and
no audio-codec or audio-bitrate flag; with any other device it holds
exactly one of each, the audio input stage appears verbatim, and the
audio-codec stage carries the selected bitrate.  The freeness hypothesis
says no user-chosen field is itself literally one of the three audio
flags (true of every value the UI can produce: the frame rate is the
digits of a spinbox value, the bitrate one of six `..k` entries, the
resolution `WxH` text, and device tokens are prefixed with `audio=`). -/
theorem audio_stages_conditional (offsetX offsetY : Int)
    (resolution fps audioDevice bitRate outputPath : String)
    (hfree : ∀ t ∈ (["dshow", "-acodec", "-b:a"] : List String),
      t ≠ fps ∧ t ≠ resolution ∧ t ≠ bitRate ∧ t ≠ outputPath ∧
      t ≠ toString offsetX ∧ t ≠ toString offsetY ∧
      t ≠ "audio=" ++ audioDevice) :
    (audioDevice = "None" →
      (buildCmd offsetX offsetY resolution fps audioDevice bitRate
        outputPath).count "dshow" = 0 ∧
      (buildCmd offsetX offsetY resolution fps audioDevice bitRate
        outputPath).count "-acodec" = 0 ∧
      (buildCmd offsetX offsetY resolution fps audioDevice bitRate
        outputPath).count "-b:a" = 0) ∧
    (audioDevice ≠ "None" →
      (buildCmd offsetX offsetY resolution fps audioDevice bitRate
        outputPath).count "dshow" = 1 ∧
      (buildCmd offsetX offsetY resolution fps audioDevice bitRate
        outputPath).count "-acodec" = 1 ∧
      (buildCmd offsetX offsetY resolution fps audioDevice bitRate
        outputPath).count "-b:a" = 1 ∧
      (∃ pre suf, buildCmd offsetX offsetY resolution fps audioDevice bitRate
          outputPath =
        pre ++ ["-f", "dshow", "-i", "audio=" ++ audioDevice] ++ suf) ∧
      (∃ pre suf, buildCmd offsetX offsetY resolution fps audioDevice bitRate
          outputPath =
        pre ++ ["-acodec", "aac", "-b:a", bitRate] ++ suf)) := by
  obtain ⟨hd1, hd2, hd3, hd4, hd5, hd6, hd7⟩ :=
    hfree "dshow" (by simp)
  obtain ⟨ha1, ha2, ha3, ha4, ha5, ha6, ha7⟩ :=
    hfree "-acodec" (by simp)
  obtain ⟨hb1, hb2, hb3, hb4, hb5, hb6, hb7⟩ :=
    hfree "-b:a" (by simp)
  constructor
  · intro hnone
    subst hnone
    refine ⟨?_, ?_, ?_⟩
    · rw [List.count_eq_zero]
      simp [buildCmd, screenStage, audioInputStage, videoCodecStage,
        audioCodecStage, hd1, hd2, hd4, hd5, hd6]
    · rw [List.count_eq_zero]
      simp [buildCmd, screenStage, audioInputStage, videoCodecStage,
        audioCodecStage, ha1, ha2, ha4, ha5, ha6]
    · rw [List.count_eq_zero]
      simp [buildCmd, screenStage, audioInputStage, videoCodecStage,
        audioCodecStage, hb1, hb2, hb4, hb5, hb6]
  · intro hsome
    have hstage : audioInputStage audioDevice =
        ["-f", "dshow", "-i", "audio=" ++ audioDevice] := by
      simp [audioInputStage, hsome]
    have hcodec : audioCodecStage audioDevice bitRate =
        ["-acodec", "aac", "-b:a", bitRate] := by
      simp [audioCodecStage, hsome]
    have escreen : ∀ t : String, t ≠ fps → t ≠ resolution →
        t ≠ toString offsetX → t ≠ toString offsetY →
        t = "dshow" ∨ t = "-acodec" ∨ t = "-b:a" →
        (screenStage fps offsetX offsetY resolution).count t = 0 := by
      intro t h1 h2 h3 h4 hlit
      rw [List.count_eq_zero]
      rcases hlit with h | h | h <;> subst h <;>
        simp [screenStage, h1, h2, h3, h4]
    refine ⟨?_, ?_, ?_, ?_, ?_⟩
    · rw [buildCmd, hstage, hcodec]
      simp only [List.count_append]
      rw [escreen "dshow" hd1 hd2 hd5 hd6 (Or.inl rfl),
        show (["ffmpeg"] : List String).count "dshow" = 0 by decide,
        show videoCodecStage.count "dshow" = 0 by decide,
        show (["-f", "dshow", "-i", "audio=" ++ audioDevice] :
          List String).count "dshow" = 1 by
            simp [List.count_cons, beq_iff_eq, hd7],
        show (["-acodec", "aac", "-b:a", bitRate] :
          List String).count "dshow" = 0 by
            simp [List.count_cons, beq_iff_eq, hd3],
        show (["-y", outputPath] : List String).count "dshow" = 0 by
          simp [List.count_cons, beq_iff_eq, hd4]]
    · rw [buildCmd, hstage, hcodec]
      simp only [List.count_append]
      rw [escreen "-acodec" ha1 ha2 ha5 ha6 (Or.inr (Or.inl rfl)),
        show (["ffmpeg"] : List String).count "-acodec" = 0 by decide,
        show videoCodecStage.count "-acodec" = 0 by decide,
        show (["-f", "dshow", "-i", "audio=" ++ audioDevice] :
          List String).count "-acodec" = 0 by
            simp [List.count_cons, beq_iff_eq, ha7],
        show (["-acodec", "aac", "-b:a", bitRate] :
          List String).count "-acodec" = 1 by
            simp [List.count_cons, beq_iff_eq, ha3],
        show (["-y", outputPath] : List String).count "-acodec" = 0 by
          simp [List.count_cons, beq_iff_eq, ha4]]
    · rw [buildCmd, hstage, hcodec]
      simp only [List.count_append]
      rw [escreen "-b:a" hb1 hb2 hb5 hb6 (Or.inr (Or.inr rfl)),
        show (["ffmpeg"] : List String).count "-b:a" = 0 by decide,
        show videoCodecStage.count "-b:a" = 0 by decide,
        show (["-f", "dshow", "-i", "audio=" ++ audioDevice] :
          List String).count "-b:a" = 0 by
            simp [List.count_cons, beq_iff_eq, hb7],
        show (["-acodec", "aac", "-b:a", bitRate] :
          List String).count "-b:a" = 1 by
            simp [List.count_cons, beq_iff_eq, hb3],
        show (["-y", outputPath] : List String).count "-b:a" = 0 by
          simp [List.count_cons, beq_iff_eq, hb4]]
    · refine ⟨["ffmpeg"] ++ screenStage fps offsetX offsetY resolution,
        videoCodecStage ++ ["-acodec", "aac", "-b:a", bitRate] ++
          ["-y", outputPath], ?_⟩
      rw [buildCmd, hstage, hcodec]
      simp
    · refine ⟨["ffmpeg"] ++ screenStage fps offsetX offsetY resolution ++
        ["-f", "dshow", "-i", "audio=" ++ audioDevice] ++ videoCodecStage,
        ["-y", outputPath], ?_⟩
      rw [buildCmd, hstage, hcodec]

/-- Witness for C5: the spec's no-audio scenario settings, and the same
settings with a concrete microphone selected. -/
theorem audio_stages_conditional_witness :
    (buildCmd 0 0 "1920x1080" "30" "None" "128k" "/tmp/out.mp4").count
      "dshow" = 0 ∧
    (buildCmd 0 0 "1920x1080" "30" "Microphone (Realtek)" "128k"
      "/tmp/out.mp4").count "dshow" = 1 ∧
    (buildCmd 0 0 "1920x1080" "30" "Microphone (Realtek)" "128k"
      "/tmp/out.mp4").count "-acodec" = 1 := by
  refine ⟨((audio_stages_conditional 0 0 "1920x1080" "30" "None" "128k"
      "/tmp/out.mp4" (by decide)).1 rfl).1, ?_, ?_⟩
  · exact ((audio_stages_conditional 0 0 "1920x1080" "30"
      "Microphone (Realtek)" "128k" "/tmp/out.mp4" (by decide)).2
      (by decide)).1
  · exact ((audio_stages_conditional 0 0 "1920x1080" "30"
      "Microphone (Realtek)" "128k" "/tmp/out.mp4" (by decide)).2
      (by decide)).2.1

end ScreenRec
